import Mathlib

/-!
Verification of `script.py`, a weather-ingestion CLI.

The program fetches current weather from an HTTP service, translates coded
fields to Russian labels, stores records in a `weather_data` table, and can
export the last ten records to a spreadsheet.  This file shallowly embeds
the program: pure Python functions become Lean functions, the database and
file system become explicit state, numbers become exact rationals (all
numeric values involved are decimal literals passed through unchanged, so
the rational model matches the observable float behaviour), and fallible
code returns `Option`/`Except`.
-/

namespace WeatherCLI

/-- A value as bound into a SQL parameter or spreadsheet cell: a real
number, a string, or SQL NULL (the value a Python `None` binds to). -/
inductive SqlValue where
  | real (q : ℚ)
  | varchar (s : String)
  | null
deriving DecidableEq, Repr

/-- Embeds `convert_wind_direction` (script.py lines 32-55).  Python's
`match` with no wildcard falls through and the function returns `None`,
modelled as `none`.  The label for "nw" begins with a Latin `C`
(U+0043), exactly as in the source. -/
def convert_wind_direction (wind_direction : String) : Option String :=
  if wind_direction = "nw" then some "Cеверо-западное"
  else if wind_direction = "n" then some "Северное"
  else if wind_direction = "ne" then some "Северно-восточное"
  else if wind_direction = "e" then some "Восточное"
  else if wind_direction = "se" then some "Юго-восточное"
  else if wind_direction = "s" then some "Южное"
  else if wind_direction = "sw" then some "Юго-западное"
  else if wind_direction = "w" then some "Западное"
  else if wind_direction = "c" then some "Штиль"
  else none

/-- Embeds `convert_precipitation_type` (script.py lines 58-73); falls
through to `None` outside 0..4. -/
def convert_precipitation_type (precipitation_type : ℤ) : Option String :=
  if precipitation_type = 0 then some "Без осадков"
  else if precipitation_type = 1 then some "Дождь"
  else if precipitation_type = 2 then some "Дождь со снегом"
  else if precipitation_type = 3 then some "Снег"
  else if precipitation_type = 4 then some "Град"
  else none

/-- Embeds `convert_precipitation_strength` (script.py lines 76-90); the
five decimal codes are exactly representable, so ℚ is faithful; falls
through to `None` outside the domain. -/
def convert_precipitation_strength (precipitation_strength : ℚ) : Option String :=
  if precipitation_strength = 0 then some "Без осадков"
  else if precipitation_strength = 1/4 then some "Слабые осадки"
  else if precipitation_strength = 1/2 then some "Рядовые осадки"
  else if precipitation_strength = 3/4 then some "Сильные осадки"
  else if precipitation_strength = 1 then some "Очень сильные осадки"
  else none

/-- The nine wind-direction codes the source handles, in source order. -/
def windDirectionDomain : List String :=
  ["nw", "n", "ne", "e", "se", "s", "sw", "w", "c"]

/-- The five precipitation-strength codes the source handles. -/
def precipitationStrengthDomain : List ℚ := [0, 1/4, 1/2, 3/4, 1]

/-- Value of a decimal digit character, `none` otherwise. -/
def decDigit (c : Char) : Option ℕ :=
  if '0' ≤ c ∧ c ≤ '9' then some (c.toNat - 48) else none

/-- Value of a nonempty all-digit character list, `none` otherwise. -/
def digitsVal : List Char → Option ℕ
  | [] => none
  | cs => cs.foldl (fun acc c => do pure ((← acc) * 10 + (← decDigit c))) (some 0)

/-- Splits a character list at its first dot: everything before it, and
(when a dot is present) everything after it. -/
def splitDot : List Char → List Char × Option (List Char)
  | [] => ([], none)
  | c :: cs =>
    if c = '.' then ([], some cs)
    else
      let (w, f) := splitDot cs
      (c :: w, f)

/-- Models the Python builtin `float` applied to the decimal string
literals this program receives: an optional minus sign, a digit group,
and an optional dot followed by a second digit group, evaluated exactly
as a rational.  Other shapes raise `ValueError` in Python, modelled as
`none` (Python also accepts a few forms this program never receives,
such as surrounding whitespace or a bare trailing dot). -/
def parseDecimal (s : String) : Option ℚ :=
  let core (cs : List Char) : Option ℚ :=
    match splitDot cs with
    | (w, none) => (digitsVal w).map (fun n => (n : ℚ))
    | (w, some f) => do
        let iw ← digitsVal w
        let fn ← digitsVal f
        pure ((iw : ℚ) + (fn : ℚ) / ((10 : ℚ) ^ f.length))
  match s.toList with
  | '-' :: rest => (core rest).map Neg.neg
  | cs => core cs

/-- The `fact` object of the weather service's JSON body, restricted to
the keys `parse_weather_data` reads (script.py lines 97-105): three
numeric fields arrive as strings/numbers coerced via `float`, the wind
direction as a coded string, precipitation type as a small integer code,
precipitation strength as one of five decimal codes. -/
structure WeatherResponse where
  temp : String
  wind_speed : String
  pressure_mm : String
  wind_dir : String
  prec_type : ℤ
  prec_strength : ℚ
deriving DecidableEq, Repr

/-- The dict built by `parse_weather_data` (script.py lines 107-114), in
its Python insertion order.  Translated fields may be `None` when the code
is unrecognized — the record is stored with a hole in that column. -/
structure WeatherRecord where
  temperature : ℚ
  wind_direction : Option String
  wind_speed : ℚ
  pressure : ℚ
  precipitation_type : Option String
  precipitation_strength : Option String
deriving DecidableEq, Repr

/-- Embeds `parse_weather_data` (script.py lines 93-114).  A `float`
coercion failure raises in Python (uncaught), modelled as `none`; the
dispatch of the translators to an executor is awaited immediately, so it
is plain sequential function application. -/
def parse_weather_data (data : WeatherResponse) : Option WeatherRecord := do
  let temperature ← parseDecimal data.temp
  let wind_speed ← parseDecimal data.wind_speed
  let pressure ← parseDecimal data.pressure_mm
  pure {
    temperature := temperature
    wind_direction := convert_wind_direction data.wind_dir
    wind_speed := wind_speed
    pressure := pressure
    precipitation_type := convert_precipitation_type data.prec_type
    precipitation_strength := convert_precipitation_strength data.prec_strength }

/-- The row of SQL parameter values produced by `list(data.values())` in
`async_insert_data_into_db` (script.py line 171): the six fields of the
parsed dict in its insertion order, which is exactly the column order
named in the INSERT statement (temperature, wind_direction, wind_speed,
pressure, precipitation_type, precipitation_strength).  A Python `None`
in a translated field binds as SQL NULL. -/
def recordValues (r : WeatherRecord) : List SqlValue :=
  [SqlValue.real r.temperature,
   (r.wind_direction.map SqlValue.varchar).getD SqlValue.null,
   SqlValue.real r.wind_speed,
   SqlValue.real r.pressure,
   (r.precipitation_type.map SqlValue.varchar).getD SqlValue.null,
   (r.precipitation_strength.map SqlValue.varchar).getD SqlValue.null]

/-- The state of the PostgreSQL database as this program can observe it:
how many `weather_data` tables exist (0 before the first
`CREATE TABLE IF NOT EXISTS`, never more than 1 afterwards), and the
stored rows in insertion order — the serial `id` column assigns
increasing ids, so list position is insertion order and ascending id. -/
structure DBState where
  tableCount : ℕ
  rows : List (List SqlValue)
deriving DecidableEq, Repr

/-- Embeds `async_create_table` (script.py lines 155-164): a
`CREATE TABLE IF NOT EXISTS` statement, with the standard SQL semantics
that it creates the table only when absent, succeeds either way, and
leaves stored rows untouched. -/
def async_create_table (db : DBState) : DBState :=
  if db.tableCount = 0 then { db with tableCount := 1 } else db

/-- Embeds `async_insert_data_into_db` (script.py lines 167-176): appends
one row whose six parameterized values are `list(data.values())` bound
to the six named columns in order. -/
def async_insert_data_into_db (db : DBState) (data : WeatherRecord) : DBState :=
  { db with rows := db.rows ++ [recordValues data] }

/-- Embeds `async_get_records_count` (script.py lines 179-188):
`SELECT count(*) FROM weather_data`. -/
def async_get_records_count (db : DBState) : ℕ :=
  db.rows.length

/-- Embeds `async_get_ten_last_records` (script.py lines 191-208): when
fewer than 10 rows are stored it returns `[]`; otherwise it runs
`SELECT (six columns) FROM weather_data ORDER BY ID DESC LIMIT 10`,
i.e. the stored rows newest first, truncated to ten, each row already in
the fixed six-column order. -/
def async_get_ten_last_records (db : DBState) : List (List SqlValue) :=
  if async_get_records_count db < 10 then []
  else (db.rows.reverse).take 10

/-- The header row of `async_get_data_for_xlsx_file`
(script.py lines 215-216). -/
def xlsxHeaders : List SqlValue :=
  [SqlValue.varchar "Температура", SqlValue.varchar "Направление ветра",
   SqlValue.varchar "Скорость ветра", SqlValue.varchar "Атмосферное давление",
   SqlValue.varchar "Тип осадков", SqlValue.varchar "Количество осадков"]

/-- Embeds `async_get_data_for_xlsx_file` (script.py lines 211-221):
returns `[]` when the last-ten query returns `[]` (fewer than 10 rows),
otherwise the header row followed by the ten records. -/
def async_get_data_for_xlsx_file (db : DBState) : List (List SqlValue) :=
  let records := async_get_ten_last_records db
  if records = [] then [] else xlsxHeaders :: records

/-- The workbook produced by `export_data_to_xlsx_file`
(script.py lines 224-240): one worksheet titled by the fixed label, rows
appended in order, and a list of the 1-indexed (row, column) cells whose
font was set bold. -/
structure Worksheet where
  title : String
  rows : List (List SqlValue)
  boldCells : List (ℕ × ℕ)
deriving DecidableEq, Repr

/-- Embeds `export_data_to_xlsx_file` minus the final save: appends every
row of `data` in order to the single active worksheet and sets a bold
font on exactly the cells of the range A1:F1, i.e. row 1, columns 1-6. -/
def export_data_to_xlsx_file (data : List (List SqlValue)) : Worksheet :=
  { title := "Данные"
    rows := data
    boldCells := [(1, 1), (1, 2), (1, 3), (1, 4), (1, 5), (1, 6)] }

/-- The file system as this program can observe it: which workbook, if
any, is stored at each path. -/
def FileSystem : Type := String → Option Worksheet

/-- Embeds `workbook.save('weather_data.xlsx')` (script.py line 240):
writes the workbook at the fixed path, replacing whatever was there. -/
def saveWorkbook (fs : FileSystem) (path : String) (wb : Worksheet) : FileSystem :=
  fun p => if p = path then some wb else fs p

/-- The notice printed when the export branch succeeds
(script.py line 259). -/
def exportSuccessMsg : String :=
  "Экспорт данных в файл \"weather_data.xlsx\" успешно выполнен."

/-- The notice printed when fewer than 10 rows are stored
(script.py line 261). -/
def notEnoughMsg : String :=
  "Количество записей в БД меньше 10. Экспорт данных не выполнен."

/-- The export branch of `main` (script.py lines 253-261): fetch the
data; Python's `if data_for_xlsx_file:` tests list non-emptiness; on the
non-empty side the spreadsheet is built and saved to the fixed path and
the success notice printed, otherwise the not-enough-data notice is
printed and no file is touched.  Returns the resulting file system and
the printed message.  (The save itself is handed to a worker thread and
not awaited — its placement in time is analysed separately by the trace
model below; the thread pool joins its threads before interpreter exit,
so the write itself does occur.) -/
def exportBranch (db : DBState) (fs : FileSystem) : FileSystem × String :=
  let d := async_get_data_for_xlsx_file db
  if d.isEmpty then (fs, notEnoughMsg)
  else (saveWorkbook fs "weather_data.xlsx" (export_data_to_xlsx_file d), exportSuccessMsg)

/-- The outcome of the HTTP GET in `async_get_weather_data`
(script.py lines 128-133), as the black-box client reports it: a JSON
body whose `fact` object is read, an `aiohttp.ClientResponseError`
(the one exception class the code catches), or any other client error
(which the code does not catch). -/
inductive HttpResult where
  | ok (fact : WeatherResponse)
  | clientResponseError (details : String)
  | otherClientError (details : String)
deriving DecidableEq, Repr

/-- How a cycle can abort the process: an explicit `sys.exit(msg)` call,
or an exception propagating uncaught to the top level (which also
terminates the process, printing its details in a traceback). -/
inductive ExitReason where
  | serviceExit (msg : String)
  | uncaughtError (details : String)
deriving DecidableEq, Repr

/-- The message `sys.exit` receives on a caught client response error
(script.py line 132). -/
def serviceErrorMsg (details : String) : String :=
  "Ошибка на стороне сервиса с данными о погоде. Детали: " ++ details

/-- Embeds `async_get_weather_data` (script.py lines 117-136): a caught
`ClientResponseError` exits the process with the formatted message; any
other client error propagates uncaught (also fatal); a successful
response has its `fact` object parsed, where a failing `float` coercion
raises an uncaught `ValueError`. -/
def async_get_weather_data (response : HttpResult) : Except ExitReason WeatherRecord :=
  match response with
  | .clientResponseError e => .error (.serviceExit (serviceErrorMsg e))
  | .otherClientError e => .error (.uncaughtError e)
  | .ok fact =>
    match parse_weather_data fact with
    | some r => .ok r
    | none => .error (.uncaughtError "ValueError: could not convert string to float")

/-- One iteration of the ingestion loop body (script.py lines 270-272):
fetch the weather, then insert the parsed record.  Any failure aborts
the process before the insert, so the error side carries no new
database state. -/
def ingestionCycle (db : DBState) (response : HttpResult) : Except ExitReason DBState :=
  match async_get_weather_data response with
  | .error reason => .error reason
  | .ok r => .ok (async_insert_data_into_db db r)

/-- Embeds `get_cli_args` (script.py lines 14-29): `-f` (`--frequency`) uses
the default `store` action, so whatever string was supplied is returned
unchanged (no type conversion or validation); `--excel` is a
`store_true` boolean.  `none` means the flag was absent. -/
def get_cli_args (frequencyArg : Option String) (excelFlag : Bool) :
    Option String × Bool :=
  (frequencyArg, excelFlag)

/-- Python truthiness of the frequency value as used in
`if not frequency ...` and `if frequency:` (script.py lines 248, 263):
`None` and the empty string are falsy, every other string truthy. -/
def truthy : Option String → Bool
  | none => false
  | some s => !s.isEmpty

/-- Models the Python builtin `int` applied to the frequency string at
`int(frequency)` (script.py line 275): an optional minus sign followed
by digits parses; anything else raises `ValueError`, modelled as `none`
(Python also tolerates surrounding whitespace, a plus sign and digit
underscores, which do not matter for the inputs considered here). -/
def pyInt (s : String) : Option ℤ :=
  match s.toList with
  | '-' :: rest => (digitsVal rest).map (fun n => -(n : ℤ))
  | cs => (digitsVal cs).map (fun n => (n : ℤ))

/-- The usage message passed to `sys.exit` when neither flag is given
(script.py line 249). -/
def usageMsg : String :=
  "Для работы скрипта должен быть указан один из флагов: --excel, --frequency <int>"

/-- Exit status of `sys.exit(msg)` with a string argument: Python prints
the message to standard error and exits with status 1. -/
def sysExitMessageStatus : ℕ := 1

/-- Observable steps of `main` (script.py lines 243-275), named after
the calls they stand for. -/
inductive Step where
  | exitUsage
  | connectDB
  | runExport
  | createTable
  | fetchWeather
  | insertRecord
  | printRecord
  | sleepSeconds (n : ℤ)
  | raiseIntError
deriving DecidableEq, Repr

/-- The ingestion branch of `main` (script.py lines 263-275) through its
first loop iteration: create the table, then fetch, insert, print, and
finally evaluate `int(frequency) * 60` for the sleep — which is where a
non-integer frequency string first raises. -/
def ingestionFirstSteps (f : String) : List Step :=
  [Step.createTable, Step.fetchWeather, Step.insertRecord, Step.printRecord] ++
  (match pyInt f with
   | some n => [Step.sleepSeconds (n * 60)]
   | none => [Step.raiseIntError])

/-- The step trace of `main` (script.py lines 243-275) up to and
including the first ingestion iteration: with neither flag truthy it is
exactly the usage exit; otherwise it connects, runs the export branch
when the excel flag is set, and runs the ingestion branch when the
frequency value is truthy. -/
def mainSteps (frequency : Option String) (excel : Bool) : List Step :=
  if !truthy frequency && !excel then [Step.exitUsage]
  else
    [Step.connectDB]
    ++ (if excel then [Step.runExport] else [])
    ++ (if truthy frequency then ingestionFirstSteps ((frequency).getD "") else [])

/-- Events of `main` when both flags are set and at least ten rows are
stored, for the analysis of what happens between the export branch and
the first ingestion iteration.  `scheduleWrite` is the
`loop.run_in_executor(None, export_data_to_xlsx_file, ...)` call
(script.py line 258), which hands the spreadsheet write to a worker
thread without awaiting it; `writeXlsxFile` is that thread completing
the write. -/
inductive Ev where
  | readDataForXlsx
  | scheduleWrite
  | printSuccess
  | writeXlsxFile
  | createTable
  | firstFetch
  | firstInsert
  | firstPrint
  | firstSleep
deriving DecidableEq, Repr

/-- The statement order of the `main` coroutine itself
(script.py lines 253-275, both flags set, ten or more rows stored):
read the export data, schedule the write, print the success notice,
create the table, then the first fetch-insert-print-sleep iteration. -/
def coroutineEvents : List Ev :=
  [Ev.readDataForXlsx, Ev.scheduleWrite, Ev.printSuccess,
   Ev.createTable, Ev.firstFetch, Ev.firstInsert, Ev.firstPrint, Ev.firstSleep]

/-- The possible complete traces: the worker thread performs the write
at some point after it is scheduled (index 2 up to index 8 in the
coroutine's event list), interleaved with the coroutine's own steps. -/
def interleavedTrace (k : Fin 7) : List Ev :=
  coroutineEvents.take (k.1 + 2) ++ [Ev.writeXlsxFile] ++ coroutineEvents.drop (k.1 + 2)

/-- Position of an event in a trace. -/
def eventIndex (t : List Ev) (e : Ev) : ℕ := t.indexOf e

/-- The mocked weather response of the end-to-end property: the `fact`
object `{temp: "5.5", wind_speed: "3.2", pressure_mm: "745",
wind_dir: "n", prec_type: 0, prec_strength: 0}`. -/
def mockResponse : WeatherResponse :=
  { temp := "5.5", wind_speed := "3.2", pressure_mm := "745",
    wind_dir := "n", prec_type := 0, prec_strength := 0 }

/-- The record `parse_weather_data` is expected to build from
`mockResponse`. -/
def mockRecord : WeatherRecord :=
  { temperature := 11/2, wind_direction := some "Северное",
    wind_speed := 16/5, pressure := 745,
    precipitation_type := some "Без осадков",
    precipitation_strength := some "Без осадков" }

/-- The row `(5.5, "Северное", 3.2, 745.0, "Без осадков", "Без осадков")`
in the fixed six-column order. -/
def mockRow : List SqlValue :=
  [SqlValue.real (11/2), SqlValue.varchar "Северное", SqlValue.real (16/5),
   SqlValue.real 745, SqlValue.varchar "Без осадков",
   SqlValue.varchar "Без осадков"]

/-- C1: every code in each translator's fixed domain maps to exactly its
documented label (the "nw" label beginning with the source's Latin `C`),
and every input outside the domain yields `none` — no error and no
default label. -/
theorem claim_C1_translator_tables :
    (convert_wind_direction "nw" = some "Cеверо-западное" ∧
     convert_wind_direction "n" = some "Северное" ∧
     convert_wind_direction "ne" = some "Северно-восточное" ∧
     convert_wind_direction "e" = some "Восточное" ∧
     convert_wind_direction "se" = some "Юго-восточное" ∧
     convert_wind_direction "s" = some "Южное" ∧
     convert_wind_direction "sw" = some "Юго-западное" ∧
     convert_wind_direction "w" = some "Западное" ∧
     convert_wind_direction "c" = some "Штиль") ∧
    (∀ s : String, s ∉ windDirectionDomain → convert_wind_direction s = none) ∧
    (convert_precipitation_type 0 = some "Без осадков" ∧
     convert_precipitation_type 1 = some "Дождь" ∧
     convert_precipitation_type 2 = some "Дождь со снегом" ∧
     convert_precipitation_type 3 = some "Снег" ∧
     convert_precipitation_type 4 = some "Град") ∧
    (∀ n : ℤ, n ∉ ([0, 1, 2, 3, 4] : List ℤ) → convert_precipitation_type n = none) ∧
    (convert_precipitation_strength 0 = some "Без осадков" ∧
     convert_precipitation_strength (1/4) = some "Слабые осадки" ∧
     convert_precipitation_strength (1/2) = some "Рядовые осадки" ∧
     convert_precipitation_strength (3/4) = some "Сильные осадки" ∧
     convert_precipitation_strength 1 = some "Очень сильные осадки") ∧
    (∀ q : ℚ, q ∉ precipitationStrengthDomain →
      convert_precipitation_strength q = none) := by
  refine ⟨?_, ?_, ?_, ?_, ?_, ?_⟩
  · exact ⟨rfl, rfl, rfl, rfl, rfl, rfl, rfl, rfl, rfl⟩
  · intro s hs
    simp only [windDirectionDomain, List.mem_cons, List.not_mem_nil, or_false] at hs
    push_neg at hs
    obtain ⟨h1, h2, h3, h4, h5, h6, h7, h8, h9⟩ := hs
    simp [convert_wind_direction, h1, h2, h3, h4, h5, h6, h7, h8, h9]
  · exact ⟨rfl, rfl, rfl, rfl, rfl⟩
  · intro n hn
    simp only [List.mem_cons, List.not_mem_nil, or_false] at hn
    push_neg at hn
    obtain ⟨h0, h1, h2, h3, h4⟩ := hn
    simp [convert_precipitation_type, h0, h1, h2, h3, h4]
  · refine ⟨rfl, ?_, ?_, ?_, ?_⟩ <;> norm_num [convert_precipitation_strength]
  · intro q hq
    simp only [precipitationStrengthDomain, List.mem_cons, List.not_mem_nil,
      or_false] at hq
    push_neg at hq
    obtain ⟨h0, h1, h2, h3, h4⟩ := hq
    simp only [one_div] at h1 h2
    simp [convert_precipitation_strength, h0, h1, h2, h3, h4]

/-- Witness for C1: concrete inputs outside each domain are translated
to `none`. -/
theorem claim_C1_witness :
    convert_wind_direction "xx" = none ∧
    convert_precipitation_type 7 = none ∧
    convert_precipitation_strength (1/3) = none :=
  ⟨claim_C1_translator_tables.2.1 "xx" (by decide),
   claim_C1_translator_tables.2.2.2.1 7 (by decide),
   claim_C1_translator_tables.2.2.2.2.2 (1/3)
     (by norm_num [precipitationStrengthDomain])⟩

/-- C2: from the mocked response, parsing builds exactly the expected
record and one ingestion cycle appends exactly the expected row — the
six fields bound to the columns temperature, wind_direction, wind_speed,
pressure, precipitation_type, precipitation_strength in that order — to
any database state. -/
theorem claim_C2_end_to_end (db : DBState) :
    parse_weather_data mockResponse = some mockRecord ∧
    recordValues mockRecord = mockRow ∧
    ingestionCycle db (HttpResult.ok mockResponse) =
      Except.ok { db with rows := db.rows ++ [mockRow] } := by
  have hparse : parse_weather_data mockResponse = some mockRecord := by
    simp [parse_weather_data, mockResponse, mockRecord, parseDecimal, splitDot,
      digitsVal, decDigit, convert_wind_direction, convert_precipitation_type,
      convert_precipitation_strength]
    norm_num
  refine ⟨hparse, by simp [recordValues, mockRecord, mockRow], ?_⟩
  simp [ingestionCycle, async_get_weather_data, hparse,
    async_insert_data_into_db, recordValues, mockRecord, mockRow]

/-- C3: with fewer than 10 stored rows the last-ten query returns the
empty sequence; with at least 10 it returns exactly 10 rows, the i-th
returned row being the (i+1)-th most recently inserted one (descending
insertion order). -/
theorem claim_C3_last_ten (db : DBState) :
    (async_get_records_count db < 10 → async_get_ten_last_records db = []) ∧
    (10 ≤ async_get_records_count db →
      (async_get_ten_last_records db).length = 10 ∧
      ∀ i : ℕ, i < 10 →
        (async_get_ten_last_records db).get? i =
          db.rows.get? (db.rows.length - 1 - i)) := by
  constructor
  · intro h
    simp [async_get_ten_last_records, h]
  · intro h
    have hnot : ¬ async_get_records_count db < 10 := not_lt.mpr h
    have hlen : db.rows.length = async_get_records_count db := rfl
    constructor
    · simp only [async_get_ten_last_records, hnot, if_false]
      rw [List.length_take, List.length_reverse]
      omega
    · intro i hi
      simp only [async_get_ten_last_records, hnot, if_false]
      rw [List.get?_take hi, List.get?_reverse (by omega)]

end WeatherCLI

namespace WeatherCLI

/-- A six-column test row whose first column makes rows distinct. -/
def testRow (i : ℕ) : List SqlValue :=
  [SqlValue.varchar (String.mk (List.replicate i 'x')), SqlValue.varchar "Северное",
   SqlValue.varchar "3", SqlValue.varchar "745",
   SqlValue.varchar "Без осадков", SqlValue.varchar "Без осадков"]

/-- A database state holding exactly ten rows. -/
def testDB : DBState := ⟨1, (List.range 10).map testRow⟩

/-- A database state holding exactly nine rows. -/
def testSmallDB : DBState := ⟨1, (List.range 9).map testRow⟩

/-- A file system with no file at any path. -/
def emptyFS : FileSystem := fun _ => none

/-- Witness for C3: nine rows give the empty sequence; ten rows give ten
results whose first is the most recently inserted row. -/
theorem claim_C3_witness :
    async_get_ten_last_records testSmallDB = [] ∧
    (async_get_ten_last_records testDB).length = 10 ∧
    (async_get_ten_last_records testDB).get? 0 = testDB.rows.get? 9 := by
  refine ⟨(claim_C3_last_ten testSmallDB).1 (by decide),
    ((claim_C3_last_ten testDB).2 (by decide)).1, ?_⟩
  have h := ((claim_C3_last_ten testDB).2 (by decide)).2 0 (by decide)
  simpa [testDB] using h

/-- C4: with at least 10 stored rows the export branch writes (at the
fixed path, over whatever was there, leaving every other path untouched)
a workbook of exactly 11 rows — the six-column header first, then the
ten most recent records — with bold styling on exactly the header cells
A1:F1, and prints the success notice; with fewer than 10 rows the file
system is unchanged and the not-enough-data notice is printed. -/
theorem claim_C4_export (db : DBState) (fs : FileSystem) :
    (10 ≤ async_get_records_count db →
      (exportBranch db fs).2 = exportSuccessMsg ∧
      ∃ wb : Worksheet,
        (exportBranch db fs).1 "weather_data.xlsx" = some wb ∧
        wb.rows.length = 11 ∧
        wb.rows.head? = some xlsxHeaders ∧
        wb.rows.tail = async_get_ten_last_records db ∧
        wb.boldCells = [(1, 1), (1, 2), (1, 3), (1, 4), (1, 5), (1, 6)] ∧
        ∀ p : String, p ≠ "weather_data.xlsx" → (exportBranch db fs).1 p = fs p) ∧
    (async_get_records_count db < 10 →
      exportBranch db fs = (fs, notEnoughMsg)) := by
  constructor
  · intro h
    have hnot : ¬ async_get_records_count db < 10 := not_lt.mpr h
    have hlen : (async_get_ten_last_records db).length = 10 := by
      simp only [async_get_ten_last_records, hnot, if_false]
      rw [List.length_take, List.length_reverse]
      have : 10 ≤ db.rows.length := h
      omega
    have hne : async_get_ten_last_records db ≠ [] := by
      intro hnil
      rw [hnil] at hlen
      simp at hlen
    have hdata : async_get_data_for_xlsx_file db =
        xlsxHeaders :: async_get_ten_last_records db := by
      simp [async_get_data_for_xlsx_file, hne]
    have hbranch : exportBranch db fs =
        (saveWorkbook fs "weather_data.xlsx"
          (export_data_to_xlsx_file (async_get_data_for_xlsx_file db)),
         exportSuccessMsg) := by
      rw [exportBranch, hdata]
      simp
    refine ⟨by rw [hbranch],
      export_data_to_xlsx_file (async_get_data_for_xlsx_file db), ?_, ?_, ?_, ?_,
      rfl, ?_⟩
    · rw [hbranch]
      simp [saveWorkbook]
    · rw [hdata]
      simp [export_data_to_xlsx_file, hlen]
    · rw [hdata]
      simp [export_data_to_xlsx_file]
    · rw [hdata]
      simp [export_data_to_xlsx_file]
    · intro p hp
      rw [hbranch]
      simp [saveWorkbook, hp]
  · intro h
    have hrec : async_get_ten_last_records db = [] := by
      simp [async_get_ten_last_records, h]
    simp [exportBranch, async_get_data_for_xlsx_file, hrec]

/-- Witness for C4: on the ten-row state the export succeeds, on the
nine-row state nothing is written and the notice is printed. -/
theorem claim_C4_witness :
    (exportBranch testDB emptyFS).2 = exportSuccessMsg ∧
    exportBranch testSmallDB emptyFS = (emptyFS, notEnoughMsg) :=
  ⟨((claim_C4_export testDB emptyFS).1 (by decide)).1,
   (claim_C4_export testSmallDB emptyFS).2 (by decide)⟩

/-- C5: inserting one record then counting yields exactly one more than
the count before the insert, for every database state. -/
theorem claim_C5_insert_increments_count (db : DBState) (r : WeatherRecord) :
    async_get_records_count (async_insert_data_into_db db r) =
      async_get_records_count db + 1 := by
  simp [async_get_records_count, async_insert_data_into_db]

/-- Witness for C5: inserting the mock record into the empty store. -/
theorem claim_C5_witness :
    async_get_records_count (async_insert_data_into_db ⟨1, []⟩ mockRecord) =
      async_get_records_count ⟨1, []⟩ + 1 :=
  claim_C5_insert_increments_count ⟨1, []⟩ mockRecord

/-- C6: on every reachable database state (at most one `weather_data`
table) `async_create_table` called twice equals it called once, never
errors (it is a total function), leaves the stored rows unchanged, and
never yields a second table. -/
theorem claim_C6_create_table_idempotent (db : DBState) (h : db.tableCount ≤ 1) :
    async_create_table (async_create_table db) = async_create_table db ∧
    (async_create_table db).rows = db.rows ∧
    (async_create_table (async_create_table db)).rows = db.rows ∧
    (async_create_table db).tableCount ≤ 1 ∧
    (async_create_table (async_create_table db)).tableCount ≤ 1 := by
  unfold async_create_table
  rcases Nat.eq_zero_or_pos db.tableCount with h0 | hpos
  · simp [h0]
  · have hne : ¬ db.tableCount = 0 := by omega
    simp [hne, h]

/-- Witness for C6: creating the table twice from the empty database. -/
theorem claim_C6_witness :
    async_create_table (async_create_table ⟨0, []⟩) = async_create_table ⟨0, []⟩ ∧
    (async_create_table (async_create_table ⟨0, []⟩)).tableCount ≤ 1 :=
  ⟨(claim_C6_create_table_idempotent ⟨0, []⟩ (by decide)).1,
   (claim_C6_create_table_idempotent ⟨0, []⟩ (by decide)).2.2.2.2⟩

/-- Behaviour of `sys.exit` with a string argument: the message goes to
standard error and the process exits with status 1. -/
def sysExit (msg : String) : ℕ × String := (1, msg)

/-- C7: with neither flag set, `main`'s trace is exactly the usage exit
— status non-zero, the usage message on standard error — and contains no
database connection, no export (file write), and no fetch. -/
theorem claim_C7_usage_exit :
    mainSteps none false = [Step.exitUsage] ∧
    (sysExit usageMsg).1 ≠ 0 ∧
    (sysExit usageMsg).2 = usageMsg ∧
    Step.connectDB ∉ mainSteps none false ∧
    Step.fetchWeather ∉ mainSteps none false ∧
    Step.runExport ∉ mainSteps none false := by
  refine ⟨rfl, by decide, rfl, ?_, ?_, ?_⟩ <;> decide

/-- C8: a transport-level error from the HTTP client — whether the
caught `ClientResponseError` or any other client error — makes the
cycle abort the process (with the error's details in the message), and
no row is inserted: the cycle never produces a successor state. -/
theorem claim_C8_transport_error_fatal (db : DBState) (e : String) :
    ingestionCycle db (HttpResult.clientResponseError e) =
      Except.error (ExitReason.serviceExit (serviceErrorMsg e)) ∧
    ingestionCycle db (HttpResult.otherClientError e) =
      Except.error (ExitReason.uncaughtError e) ∧
    ∀ db' : DBState,
      ingestionCycle db (HttpResult.clientResponseError e) ≠ Except.ok db' ∧
      ingestionCycle db (HttpResult.otherClientError e) ≠ Except.ok db' := by
  refine ⟨rfl, rfl, ?_⟩
  intro db'
  constructor <;> intro hcontra <;>
    simp [ingestionCycle, async_get_weather_data] at hcontra

/-- Witness for C8: a concrete timeout error aborts the cycle on the
empty store. -/
theorem claim_C8_witness :
    ingestionCycle ⟨1, []⟩ (HttpResult.clientResponseError "timeout") =
      Except.error (ExitReason.serviceExit (serviceErrorMsg "timeout")) :=
  (claim_C8_transport_error_fatal ⟨1, []⟩ "timeout").1

/-- Counterexample to C9 as stated: it is not the case that in every
possible interleaving the spreadsheet write completes before the first
ingestion iteration begins — the write is only scheduled on a worker
thread, and the schedule that performs it last is valid. -/
theorem claim_C9_counterexample :
    ¬ ∀ k : Fin 7,
        eventIndex (interleavedTrace k) Ev.writeXlsxFile <
          eventIndex (interleavedTrace k) Ev.firstFetch := by
  decide

/-- C9 (amended): in every possible interleaving, the export branch's
coroutine steps — reading the ten rows, scheduling the spreadsheet
write, printing the success notice — all precede the first ingestion
iteration, and the write itself happens only after being scheduled (but
possibly after ingestion has begun). -/
theorem claim_C9_coroutine_order (k : Fin 7) :
    eventIndex (interleavedTrace k) Ev.readDataForXlsx <
      eventIndex (interleavedTrace k) Ev.firstFetch ∧
    eventIndex (interleavedTrace k) Ev.scheduleWrite <
      eventIndex (interleavedTrace k) Ev.firstFetch ∧
    eventIndex (interleavedTrace k) Ev.printSuccess <
      eventIndex (interleavedTrace k) Ev.firstFetch ∧
    eventIndex (interleavedTrace k) Ev.scheduleWrite <
      eventIndex (interleavedTrace k) Ev.writeXlsxFile := by
  revert k
  decide

/-- Witness for C9 (amended), at the schedule that performs the write
last. -/
theorem claim_C9_witness :
    eventIndex (interleavedTrace 6) Ev.scheduleWrite <
      eventIndex (interleavedTrace 6) Ev.firstFetch :=
  (claim_C9_coroutine_order 6).2.1

/-- C10: the frequency value is returned raw by `get_cli_args`; every
non-empty string is truthy and selects the ingestion branch; the trace
then runs connect, create-table, fetch, insert and print before the
frequency string is first parsed as an integer for the sleep, so a
non-integer value fails only at that point — after one fetch and one
insert have completed. -/
theorem claim_C10_frequency_unvalidated (f : String) (hne : f ≠ "") :
    get_cli_args (some f) false = (some f, false) ∧
    truthy (some f) = true ∧
    mainSteps (some f) false =
      [Step.connectDB, Step.createTable, Step.fetchWeather, Step.insertRecord,
       Step.printRecord] ++
      (match pyInt f with
       | some n => [Step.sleepSeconds (n * 60)]
       | none => [Step.raiseIntError]) ∧
    (pyInt f = none →
      mainSteps (some f) false =
        [Step.connectDB, Step.createTable, Step.fetchWeather, Step.insertRecord,
         Step.printRecord, Step.raiseIntError]) := by
  have ht : truthy (some f) = true := by
    have hemp : f.isEmpty = false := by
      rcases hb : f.isEmpty with _ | _
      · rfl
      · exact absurd ((String.isEmpty_iff f).mp hb) hne
    simp [truthy, hemp]
  refine ⟨rfl, ht, ?_, ?_⟩
  · simp [mainSteps, ht, ingestionFirstSteps]
  · intro hp
    simp [mainSteps, ht, ingestionFirstSteps, hp]

/-- Witness for C10: `-f abc` selects the ingestion branch and raises on
the integer conversion only after the first fetch and insert; `-f 0` is
likewise accepted and reaches the sleep with value 0. -/
theorem claim_C10_witness :
    mainSteps (some "abc") false =
      [Step.connectDB, Step.createTable, Step.fetchWeather, Step.insertRecord,
       Step.printRecord, Step.raiseIntError] ∧
    mainSteps (some "0") false =
      [Step.connectDB, Step.createTable, Step.fetchWeather, Step.insertRecord,
       Step.printRecord, Step.sleepSeconds 0] := by
  constructor
  · exact (claim_C10_frequency_unvalidated "abc" (by decide)).2.2.2 (by decide)
  · have h := (claim_C10_frequency_unvalidated "0" (by decide)).2.2.1
    simpa [pyInt, digitsVal, decDigit] using h

/-- Witness for C2: the parse of the mocked response evaluates to the
expected record and the insert from the empty store stores exactly the
expected row. -/
theorem claim_C2_witness :
    parse_weather_data mockResponse = some mockRecord ∧
    ingestionCycle ⟨1, []⟩ (HttpResult.ok mockResponse) =
      Except.ok ⟨1, [mockRow]⟩ := by
  refine ⟨(claim_C2_end_to_end ⟨1, []⟩).1, ?_⟩
  have h := (claim_C2_end_to_end ⟨1, []⟩).2.2
  simpa using h

end WeatherCLI
